import Mathlib

set_option maxRecDepth 100000

/-!
Verification development for GPUMon (`gpumon.go`), a single-file Go agent that
samples `nvidia-smi -q -x` output, converts memory / utilization strings, and
posts InfluxDB line-protocol points over HTTP.

Go strings are modelled as lists of bytes (`List Nat`, each element a byte
value).  Fallible / effectful parts (HTTP calls, nil-pointer dereferences)
are modelled explicitly: each network call consumes an `HTTPOutcome` from an
oracle `Nat → HTTPOutcome` indexed by the order calls are issued, and a
Go runtime panic (nil dereference) is recorded in the `crashed` flag of the
execution result.
-/

/-- Bytes of an (ASCII) Go string literal. -/
def goStr (s : String) : List Nat := s.data.map Char.toNat

/-- Embeds struct `GPUUtilization` of gpumon.go (fields `gpu_util`,
`memory_util`, `encoder_util`, `decoder_util`). -/
structure GPUUtilization where
  gPUUtil : List Nat
  memoryUtil : List Nat
  encoderUtil : List Nat
  decoderUtil : List Nat
  deriving DecidableEq

/-- Embeds struct `MemoryUsage` of gpumon.go (fields `total`, `used`, `free`). -/
structure MemoryUsage where
  total : List Nat
  used : List Nat
  free : List Nat
  deriving DecidableEq

/-- Embeds struct `GPUInfo` of gpumon.go. -/
structure GPUInfo where
  id : List Nat
  productName : List Nat
  productBrand : List Nat
  uuid : List Nat
  minorNumber : Int
  fbMemoryUsage : MemoryUsage
  bar1MemoryUsage : MemoryUsage
  utilization : GPUUtilization
  deriving DecidableEq

/-- Embeds struct `NvidiaSmiLog` of gpumon.go. -/
structure NvidiaSmiLog where
  driverVersion : List Nat
  attachedGPUs : List Nat
  gpuInfoList : List GPUInfo
  deriving DecidableEq

/-- Go `strings.HasSuffix s suffix`: length check plus equality of the tail. -/
def hasSuffix (s suffix : List Nat) : Bool :=
  suffix.length ≤ s.length && s.drop (s.length - suffix.length) == suffix

/-- Fuelled worker for Go `strings.Replace(s, pat, "", -1)`: removes every
non-overlapping occurrence of `pat`, scanning left to right.  One unit of
fuel is spent per step and each step consumes at least one byte of the
input, so `fuel = s.length` always suffices. -/
def replaceAllGo (pat : List Nat) : Nat → List Nat → List Nat
  | _, [] => []
  | 0, s => s
  | fuel + 1, c :: s =>
    if pat.isPrefixOf (c :: s) && !pat.isEmpty then
      replaceAllGo pat fuel (s.drop (pat.length - 1))
    else
      c :: replaceAllGo pat fuel s

/-- Go `strings.Replace(s, pat, "", -1)` as called by the conversion helpers. -/
def stringsReplaceAll (s pat : List Nat) : List Nat :=
  replaceAllGo pat s.length s

/-- Splits the optional leading sign exactly as Go `strconv.ParseInt` does:
a leading `+` (byte 43) or `-` (byte 45) is removed, `-` records negativity. -/
def splitSign (s : List Nat) : Bool × List Nat :=
  match s with
  | c :: rest => if c = 43 then (false, rest) else if c = 45 then (true, rest) else (false, s)
  | [] => (false, [])

/-- ASCII decimal digit test (bytes 48–57). -/
def isDigitByte (c : Nat) : Bool := 48 ≤ c && c ≤ 57

/-- Value of a list of ASCII digit bytes, most significant first. -/
def digitsToNat (ds : List Nat) : Nat := ds.foldl (fun a c => a * 10 + (c - 48)) 0

/-- Go `strconv.ParseInt(s, 10, 64)` with the error discarded (as the source
does): syntax errors yield 0; values out of int64 range are clamped to the
nearest bound (Go returns the clamped value together with `ErrRange`). -/
def parseInt64 (s : List Nat) : Int :=
  let p := splitSign s
  if p.2.isEmpty || !p.2.all isDigitByte then 0
  else
    let v : Nat := digitsToNat p.2
    if p.1 then (if 2 ^ 63 < v then -(2 ^ 63 : Int) else -(v : Int))
    else (if 2 ^ 63 ≤ v then (2 ^ 63 : Int) - 1 else (v : Int))

/-- Signed 64-bit wraparound, as performed by Go int64 multiplication. -/
def int64Wrap (n : Int) : Int := (n + 2 ^ 63) % 2 ^ 64 - 2 ^ 63

/-- Byte list of the string `" MiB"`. -/
def mibSuffix : List Nat := goStr " MiB"

/-- Byte list of the string `" %"`. -/
def pctSuffix : List Nat := goStr " %"

/-- Embeds `memUsage2Int` of gpumon.go: if the string has suffix `" MiB"`,
remove every occurrence of `" MiB"`, parse the remainder, and scale by
1024*1024 in int64 arithmetic; otherwise return 0. -/
def memUsage2Int (usage : List Nat) : Int :=
  if hasSuffix usage mibSuffix then
    int64Wrap (parseInt64 (stringsReplaceAll usage mibSuffix) * 1024 * 1024)
  else 0

/-- Embeds `utilization2Float` of gpumon.go: if the string has suffix `" %"`,
remove every occurrence of `" %"` and parse the remainder; otherwise 0. -/
def utilization2Float (utilization : List Nat) : Int :=
  if hasSuffix utilization pctSuffix then
    parseInt64 (stringsReplaceAll utilization pctSuffix)
  else 0

/-- Bytes Go's `net/url.QueryEscape` leaves unescaped: ASCII alphanumerics
and `-` `_` `.` `~`. -/
def isUnreservedByte (c : Nat) : Bool :=
  (65 ≤ c && c ≤ 90) || (97 ≤ c && c ≤ 122) || (48 ≤ c && c ≤ 57) ||
    c = 45 || c = 95 || c = 46 || c = 126

/-- Upper-case hexadecimal digit byte for a value below 16. -/
def upperHexDigit (n : Nat) : Nat := if n < 10 then 48 + n else 55 + n

/-- Embeds Go `net/url.QueryEscape`: unreserved bytes kept, space becomes
`+` (byte 43), every other byte becomes `%XX` with upper-case hex. -/
def queryEscape : List Nat → List Nat
  | [] => []
  | c :: s =>
    (if isUnreservedByte c then [c]
     else if c = 32 then [43]
     else [37, upperHexDigit (c / 16), upperHexDigit (c % 16)]) ++ queryEscape s

/-- Hexadecimal digit value of a byte, as accepted by Go `net/url` unescaping. -/
def unhexDigit (c : Nat) : Option Nat :=
  if 48 ≤ c && c ≤ 57 then some (c - 48)
  else if 65 ≤ c && c ≤ 70 then some (c - 55)
  else if 97 ≤ c && c ≤ 102 then some (c - 87)
  else none

/-- Embeds Go `net/url.QueryUnescape`: `%XX` decodes a byte (error if not
followed by two hex digits), `+` decodes to space, other bytes pass through. -/
def queryUnescape : List Nat → Option (List Nat)
  | [] => some []
  | c :: s =>
    if c = 37 then
      match s with
      | h1 :: h2 :: rest =>
        match unhexDigit h1, unhexDigit h2 with
        | some a, some b => (queryUnescape rest).map (fun r => (16 * a + b) :: r)
        | _, _ => none
      | _ => none
    else if c = 43 then (queryUnescape s).map (fun r => 32 :: r)
    else (queryUnescape s).map (fun r => c :: r)

/-- Decimal rendering of an integer, as Go `fmt.Sprintf("%d", _)` produces. -/
def showInt (i : Int) : List Nat := goStr (toString i)

/-- One InfluxDB point, as assembled by `postToInfluxdb` before rendering:
measurement name, tag string, value and timestamp (field names follow the
parameters of `appendPoint` in gpumon.go, including its spelling). -/
structure Point where
  mesurement : List Nat
  tags : List Nat
  value : Int
  timestamp : Int
  deriving DecidableEq

/-- Embeds the tag string built in `postToInfluxdb`:
`fmt.Sprintf("hostname=%s,gpuid=%s,product=%s,minor=%d", hostname,
gpustat.ID, urlquery.QueryEscape(gpustat.ProductName), gpustat.MinorNumber)`. -/
def mkTags (hostname : List Nat) (g : GPUInfo) : List Nat :=
  goStr "hostname=" ++ hostname ++ goStr ",gpuid=" ++ g.id ++
    goStr ",product=" ++ queryEscape g.productName ++
    goStr ",minor=" ++ showInt g.minorNumber

/-- Embeds `fmt.Sprintf("%s,%s value=%d %d", mesurement, tags, value,
timestamp)` from `appendPoint` (44 is the comma byte, 32 the space byte). -/
def pointLine (mesurement tags : List Nat) (value timestamp : Int) : List Nat :=
  mesurement ++ [44] ++ tags ++ goStr " value=" ++ showInt value ++ [32] ++ showInt timestamp

/-- Embeds `appendPoint` of gpumon.go: writes a newline (byte 10) first when
the buffer is non-empty, then the formatted point. -/
def appendPoint (output mesurement tags : List Nat) (value timestamp : Int) : List Nat :=
  (if 0 < output.length then output ++ [10] else output) ++
    pointLine mesurement tags value timestamp

/-- The nine points `postToInfluxdb` appends for one device, in source
order: frame-buffer total/used/free, BAR1 total/used/free, then gpu /
encoder / decoder utilization, all with the same tag string and timestamp. -/
def devicePoints (hostname : List Nat) (g : GPUInfo) (timestamp : Int) : List Point :=
  let tags := mkTags hostname g
  [⟨goStr "fbmemory/total", tags, memUsage2Int g.fbMemoryUsage.total, timestamp⟩,
   ⟨goStr "fbmemory/used", tags, memUsage2Int g.fbMemoryUsage.used, timestamp⟩,
   ⟨goStr "fbmemory/free", tags, memUsage2Int g.fbMemoryUsage.free, timestamp⟩,
   ⟨goStr "bar1memory/total", tags, memUsage2Int g.bar1MemoryUsage.total, timestamp⟩,
   ⟨goStr "bar1memory/used", tags, memUsage2Int g.bar1MemoryUsage.used, timestamp⟩,
   ⟨goStr "bar1memory/free", tags, memUsage2Int g.bar1MemoryUsage.free, timestamp⟩,
   ⟨goStr "gpu", tags, utilization2Float g.utilization.gPUUtil, timestamp⟩,
   ⟨goStr "gpu/encoder", tags, utilization2Float g.utilization.encoderUtil, timestamp⟩,
   ⟨goStr "gpu/decoder", tags, utilization2Float g.utilization.decoderUtil, timestamp⟩]

/-- Rendering of one point, i.e. `pointLine` applied to its fields. -/
def renderPoint (p : Point) : List Nat :=
  pointLine p.mesurement p.tags p.value p.timestamp

/-- The per-device buffer contents: `postbuffer.Reset()` followed by the nine
`appendPoint` calls of the loop body of `postToInfluxdb`. -/
def devicePayload (hostname : List Nat) (g : GPUInfo) (timestamp : Int) : List Nat :=
  (devicePoints hostname g timestamp).foldl
    (fun out p => appendPoint out p.mesurement p.tags p.value p.timestamp) []

/-- Newline-joined lines (one point per line). -/
def joinLines : List (List Nat) → List Nat
  | [] => []
  | [l] => l
  | l :: ls => l ++ [10] ++ joinLines ls

/-- All points generated from one report in one cycle, in device order. -/
def cyclePoints (hostname : List Nat) (info : NvidiaSmiLog) (timestamp : Int) : List Point :=
  info.gpuInfoList.flatMap (fun g => devicePoints hostname g timestamp)

/-- Outcome of one HTTP call, supplied by the environment: a connection
error (`http.Get` / `http.Post` returns a nil response and an error), a
body-read error, or a response with a status code and body. -/
inductive HTTPOutcome where
  | connError : HTTPOutcome
  | readError : HTTPOutcome
  | resp : Int → List Nat → HTTPOutcome
  deriving DecidableEq

/-- One HTTP request issued by the program. -/
inductive Request where
  | get : List Nat → Request
  | post : List Nat → List Nat → Request
  deriving DecidableEq

/-- Result of executing (part of) a cycle: the HTTP requests attempted, in
order, and whether the Go runtime panicked (crashing the process). -/
structure ExecResult where
  requests : List Request
  crashed : Bool
  deriving DecidableEq

/-- Embeds `getURL` of gpumon.go: a connection error or a body-read error is
logged and absorbed, returning code -1 and an empty body; otherwise the
status code and body are returned.  `getURL` never panics. -/
def getURL (outcome : HTTPOutcome) : Int × List Nat :=
  match outcome with
  | HTTPOutcome.connError => (-1, [])
  | HTTPOutcome.readError => (-1, [])
  | HTTPOutcome.resp code body => (code, body)

/-- Embeds `postURL` of gpumon.go: on a connection error the function logs
the error but then dereferences the nil `*http.Response` (`resp.Body`), a
runtime panic; on a read error or any response it only logs. `true` means
the call panicked. -/
def postURL (outcome : HTTPOutcome) : Bool :=
  match outcome with
  | HTTPOutcome.connError => true
  | _ => false

/-- The per-device loop of `postToInfluxdb`: for each device, reset the
buffer, append the nine points, and POST the buffer to the write URL.  The
oracle index `k` numbers the HTTP calls of the cycle; a panicking POST
(connection error, see `postURL`) stops the loop and crashes. -/
def postDevices (writeurl hostname : List Nat) (timestamp : Int)
    (env : Nat → HTTPOutcome) : List GPUInfo → Nat → ExecResult
  | [], _ => ⟨[], false⟩
  | g :: rest, k =>
    let req := Request.post writeurl (devicePayload hostname g timestamp)
    if postURL (env k) then
      ⟨[req], true⟩
    else
      let r := postDevices writeurl hostname timestamp env rest (k + 1)
      ⟨req :: r.requests, r.crashed⟩

/-- Embeds `postToInfluxdb` of gpumon.go.  The argument is the possibly-nil
`*NvidiaSmiLog` pointer main passes in.  First the create-database GET is
issued (its result is only logged, cf. `getURL`); then the code ranges over
`xmlinfo.GPUInfoList`, which on a nil pointer is a nil dereference: the
process panics. -/
def postToInfluxdb (xmlinfo : Option NvidiaSmiLog) (baseurl hostname : List Nat)
    (timestamp : Int) (env : Nat → HTTPOutcome) : ExecResult :=
  let createReq := Request.get (baseurl ++ goStr "query?q=CREATE%20DATABASE%20GPU")
  let code := (getURL (env 0)).1
  let _ := code  -- compared with 200 only to decide whether to log
  match xmlinfo with
  | none => ⟨[createReq], true⟩
  | some info =>
    let r := postDevices (baseurl ++ goStr "write?db=GPU") hostname timestamp env
      info.gpuInfoList 1
    ⟨createReq :: r.requests, r.crashed⟩

/-- One iteration of the `for` loop in `main`: when `getGPUInfo` fails, the
error is logged but `postToInfluxdb` is still called with the nil `infos`
pointer (`none`); otherwise with the decoded report. -/
def mainCycle (infos : Option NvidiaSmiLog) (baseurl hostname : List Nat)
    (timestamp : Int) (env : Nat → HTTPOutcome) : ExecResult :=
  postToInfluxdb infos baseurl hostname timestamp env

/-- Number of write (POST) requests in a request trace. -/
def countWrites (rs : List Request) : Nat :=
  (rs.filter fun r => match r with | Request.post _ _ => true | _ => false).length

/-- A device record with its `memory_util` field blanked, for stating that
the field never influences the output. -/
def eraseDev (g : GPUInfo) : GPUInfo :=
  { g with utilization := { g.utilization with memoryUtil := [] } }

/-- A report with every device's `memory_util` field blanked. -/
def eraseMemUtil (x : NvidiaSmiLog) : NvidiaSmiLog :=
  { x with gpuInfoList := x.gpuInfoList.map eraseDev }

/-- Value of a syntactically valid signed decimal string (no clamping):
the mathematical integer the claim's phrase "that integer" denotes. -/
def decStrVal (s : List Nat) : Int :=
  let p := splitSign s
  if p.1 then -(digitsToNat p.2 : Int) else (digitsToNat p.2 : Int)

/-- Syntactic validity of a decimal integer string as accepted by
`strconv.ParseInt(s, 10, 64)`: optional sign, then a non-empty run of
ASCII digits. -/
def isValidInt64Str (s : List Nat) : Bool :=
  let p := splitSign s
  !p.2.isEmpty && p.2.all isDigitByte

/-- A concrete device sample in the shape `nvidia-smi -q -x` reports,
used as input for concrete evaluations of the pipeline. -/
def sampleDevice (n : String) : GPUInfo :=
  ⟨goStr "00000000:06:00.0", goStr n, goStr "Tesla", goStr "GPU-x", 0,
   ⟨goStr "11519 MiB", goStr "0 MiB", goStr "11519 MiB"⟩,
   ⟨goStr "16384 MiB", goStr "2 MiB", goStr "16382 MiB"⟩,
   ⟨goStr "83 %", goStr "24 %", goStr "0 %", goStr "0 %"⟩⟩

/-- The first device of the sample reports. -/
def sampleDev1 : GPUInfo := sampleDevice "Tesla K80"

/-- A one-device report. -/
def sampleLog1 : NvidiaSmiLog := ⟨goStr "375.66", goStr "1", [sampleDev1]⟩

/-- A two-device report. -/
def sampleLog2 : NvidiaSmiLog :=
  ⟨goStr "375.66", goStr "2", [sampleDev1, sampleDevice "Tesla P100"]⟩

/-- The first of the nine points produced for `sampleDev1`. -/
def samplePoint : Point :=
  ⟨goStr "fbmemory/total", mkTags (goStr "host") sampleDev1,
   memUsage2Int sampleDev1.fbMemoryUsage.total, 7⟩

/-- An environment in which every HTTP call gets a 200 response. -/
def envOK : Nat → HTTPOutcome := fun _ => HTTPOutcome.resp 200 []

/-- An environment in which the create-database call succeeds but every
write POST fails with a connection error. -/
def envWriteConnError : Nat → HTTPOutcome :=
  fun k => if k = 0 then HTTPOutcome.resp 200 [] else HTTPOutcome.connError

/-- An environment in which only the create-database call (call 0) fails. -/
def envCreateFails : Nat → HTTPOutcome :=
  fun k => if k = 0 then HTTPOutcome.connError else HTTPOutcome.resp 200 []

/-- `sampleDev1` with a different `memory_util` reading. -/
def sampleDevAltMemUtil : GPUInfo :=
  { sampleDev1 with utilization := { sampleDev1.utilization with memoryUtil := goStr "99 %" } }

/-- `sampleLog1` with the device's `memory_util` reading changed. -/
def sampleLog1AltMemUtil : NvidiaSmiLog :=
  ⟨goStr "375.66", goStr "1", [sampleDevAltMemUtil]⟩

/-- A device whose frame-buffer total is negative and whose gpu utilization
is above 100, for the range-validation claim. -/
def rangeDevice : GPUInfo :=
  ⟨goStr "00000000:06:00.0", goStr "Tesla K80", goStr "Tesla", goStr "GPU-x", 0,
   ⟨goStr "-5 MiB", goStr "0 MiB", goStr "0 MiB"⟩,
   ⟨goStr "0 MiB", goStr "0 MiB", goStr "0 MiB"⟩,
   ⟨goStr "150 %", goStr "0 %", goStr "0 %", goStr "0 %"⟩⟩

/-! ### Helper lemmas: suffix test, replace-all, integer parsing -/

/-- Go `strings.HasSuffix` accepts a string that ends with the suffix. -/
theorem hasSuffix_append_self (xs p : List Nat) : hasSuffix (xs ++ p) p = true := by
  have h : (xs ++ p).length - p.length = xs.length := by simp
  simp [hasSuffix, h, List.drop_left]

/-- A string without the trailing pattern is scanned through unchanged:
while every byte of `xs` differs from the pattern head, no occurrence of
the pattern starts inside `xs`. -/
theorem replaceAllGo_skip (a : Nat) (pa : List Nat) :
    ∀ (xs rest : List Nat) (fuel : Nat), (∀ c ∈ xs, c ≠ a) →
      replaceAllGo (a :: pa) (xs.length + fuel) (xs ++ rest) =
        xs ++ replaceAllGo (a :: pa) fuel rest := by
  intro xs
  induction xs with
  | nil => intro rest fuel _; simp
  | cons c cs ih =>
    intro rest fuel h
    have hc : c ≠ a := h c (List.mem_cons_self _ _)
    have hlen : (c :: cs).length + fuel = (cs.length + fuel) + 1 := by
      simp [List.length_cons]; omega
    rw [hlen]
    have hpre : (a :: pa).isPrefixOf (c :: (cs ++ rest)) = false := by
      have hbeq : (a == c) = false := by
        simp only [beq_eq_false_iff_ne]; exact fun hac => hc hac.symm
      simp only [List.isPrefixOf_cons₂, hbeq, Bool.false_and]
    have hcond : ¬(((a :: pa).isPrefixOf (c :: (cs ++ rest)) && !(a :: pa).isEmpty) = true) := by
      simp only [hpre, Bool.false_and]
      exact Bool.false_ne_true
    show replaceAllGo (a :: pa) ((cs.length + fuel) + 1) (c :: (cs ++ rest)) = _
    rw [replaceAllGo, if_neg hcond]
    rw [ih rest fuel (fun d hd => h d (List.mem_cons_of_mem _ hd))]
    rfl

/-- Scanning the bare pattern removes it entirely. -/
theorem replaceAllGo_self (a : Nat) (pa : List Nat) (fuel : Nat) :
    replaceAllGo (a :: pa) (fuel + 1) (a :: pa) = [] := by
  have hpre : (a :: pa).isPrefixOf (a :: pa) = true := by
    simp [List.isPrefixOf_iff_prefix]
  have hcond : ((a :: pa).isPrefixOf (a :: pa) && !(a :: pa).isEmpty) = true := by
    simp [hpre]
  rw [replaceAllGo, if_pos hcond]
  have : pa.drop ((a :: pa).length - 1) = [] := by
    simp [List.length_cons]
  rw [this]
  cases fuel <;> rfl

/-- Removing all occurrences of a pattern from a string that is `xs`
followed by exactly one occurrence, where `xs` avoids the pattern head,
yields `xs` — the key fact behind the `" MiB"` / `" %"` conversions. -/
theorem stringsReplaceAll_append (xs : List Nat) (a : Nat) (pa : List Nat)
    (h : ∀ c ∈ xs, c ≠ a) :
    stringsReplaceAll (xs ++ (a :: pa)) (a :: pa) = xs := by
  unfold stringsReplaceAll
  have hl : (xs ++ a :: pa).length = xs.length + (pa.length + 1) := by
    simp [List.length_append, List.length_cons]
  rw [hl, replaceAllGo_skip a pa xs (a :: pa) (pa.length + 1) h, replaceAllGo_self]
  simp

/-- The `" MiB"` suffix as head byte 32 followed by `"MiB"`. -/
theorem mibSuffix_cons : mibSuffix = 32 :: [77, 105, 66] := by decide

/-- The `" %"` suffix as head byte 32 followed by `"%"`. -/
theorem pctSuffix_cons : pctSuffix = 32 :: [37] := by decide

/-- A syntactically valid decimal integer string contains no space byte. -/
theorem validInt64Str_no_space (s : List Nat) (hv : isValidInt64Str s = true) :
    ∀ c ∈ s, c ≠ 32 := by
  intro c hcs
  unfold isValidInt64Str splitSign at hv
  cases s with
  | nil => cases hcs
  | cons d rest =>
    by_cases h43 : d = 43
    · subst h43
      simp only [if_pos rfl, Bool.and_eq_true, List.all_eq_true] at hv
      rcases List.mem_cons.mp hcs with rfl | hmem
      · decide
      · have hdig := hv.2 c hmem
        unfold isDigitByte at hdig
        simp only [Bool.and_eq_true, decide_eq_true_eq] at hdig
        omega
    · by_cases h45 : d = 45
      · subst h45
        simp only [if_neg (show (45 : Nat) ≠ 43 from by decide), if_pos rfl,
          Bool.and_eq_true, List.all_eq_true] at hv
        rcases List.mem_cons.mp hcs with rfl | hmem
        · decide
        · have hdig := hv.2 c hmem
          unfold isDigitByte at hdig
          simp only [Bool.and_eq_true, decide_eq_true_eq] at hdig
          omega
      · simp only [if_neg h43, if_neg h45, Bool.and_eq_true, List.all_eq_true] at hv
        have hdig := hv.2 c hcs
        unfold isDigitByte at hdig
        simp only [Bool.and_eq_true, decide_eq_true_eq] at hdig
        omega

/-- The branch shape of `decStrVal` in terms of `splitSign` projections. -/
theorem decStrVal_eq (s : List Nat) :
    decStrVal s = if (splitSign s).1 then -(digitsToNat (splitSign s).2 : Int)
      else (digitsToNat (splitSign s).2 : Int) := rfl

/-- On a valid decimal string whose value is in int64 range, the embedded
`strconv.ParseInt` returns exactly that value (no clamping happens). -/
theorem parseInt64_eq_decStrVal (s : List Nat) (hv : isValidInt64Str s = true)
    (h1 : -(2 ^ 63) ≤ decStrVal s) (h2 : decStrVal s < 2 ^ 63) :
    parseInt64 s = decStrVal s := by
  have hv' : (splitSign s).2.isEmpty = false ∧ (splitSign s).2.all isDigitByte = true := by
    have hvv := hv
    unfold isValidInt64Str at hvv
    simpa [Bool.and_eq_true, Bool.not_eq_true'] using hvv
  have h63 : (2 : Nat) ^ 63 = 9223372036854775808 := by norm_num
  simp only [parseInt64]
  rw [if_neg (by simp [hv'.1, hv'.2])]
  cases hneg : (splitSign s).1 with
  | true =>
    have hval : decStrVal s = -(digitsToNat (splitSign s).2 : Int) := by
      rw [decStrVal_eq, hneg]; simp
    rw [hval] at h1
    have hle : (digitsToNat (splitSign s).2 : Int) ≤ 2 ^ 63 := by linarith
    have hlen : digitsToNat (splitSign s).2 ≤ 2 ^ 63 := by exact_mod_cast hle
    have hnlt : ¬(2 ^ 63 < digitsToNat (splitSign s).2) := by
      rw [h63] at hlen ⊢
      omega
    rw [if_pos rfl, if_neg hnlt, hval]
  | false =>
    have hval : decStrVal s = (digitsToNat (splitSign s).2 : Int) := by
      rw [decStrVal_eq, hneg]; simp
    rw [hval] at h2
    have hltn : digitsToNat (splitSign s).2 < 2 ^ 63 := by exact_mod_cast h2
    have hnle : ¬(2 ^ 63 ≤ digitsToNat (splitSign s).2) := by
      rw [h63] at hltn ⊢
      omega
    rw [if_neg Bool.false_ne_true, if_neg hnle, hval]

/-- On a syntactically invalid decimal string the embedded
`strconv.ParseInt` returns 0. -/
theorem parseInt64_invalid (s : List Nat) (h : isValidInt64Str s = false) :
    parseInt64 s = 0 := by
  unfold isValidInt64Str at h
  simp only [parseInt64]
  rw [if_pos]
  cases he : (splitSign s).2.isEmpty <;> cases ha : (splitSign s).2.all isDigitByte <;>
    simp_all

/-- Signed 64-bit wraparound is the identity inside the int64 range. -/
theorem int64Wrap_eq_self (n : Int) (h1 : -(2 ^ 63) ≤ n) (h2 : n < 2 ^ 63) :
    int64Wrap n = n := by
  unfold int64Wrap
  have hpow : (2 : Int) ^ 64 = 2 ^ 63 + 2 ^ 63 := by norm_num
  have hmod : (n + 2 ^ 63) % 2 ^ 64 = n + 2 ^ 63 :=
    Int.emod_eq_of_lt (by linarith) (by linarith)
  rw [hmod]
  ring

/-! ### Helper lemmas: payload rendering, request traces, escaping -/

/-- A rendered point line is never empty (it contains at least the comma). -/
theorem pointLine_ne_nil (m t : List Nat) (v ts : Int) : pointLine m t v ts ≠ [] := by
  simp [pointLine]

/-- A rendered point is never empty. -/
theorem renderPoint_ne_nil (p : Point) : renderPoint p ≠ [] :=
  pointLine_ne_nil _ _ _ _

/-- `appendPoint` on a non-empty buffer appends a newline and the line. -/
theorem appendPoint_of_ne_nil (b m t : List Nat) (v ts : Int) (hb : b ≠ []) :
    appendPoint b m t v ts = b ++ [10] ++ pointLine m t v ts := by
  unfold appendPoint
  rw [if_pos (List.length_pos.mpr hb)]

/-- Prepending a block that already ends in a newline distributes over
`joinLines`. -/
theorem joinLines_glue (b l : List Nat) (ls : List (List Nat)) :
    joinLines ((b ++ [10] ++ l) :: ls) = b ++ [10] ++ joinLines (l :: ls) := by
  cases ls with
  | nil => rfl
  | cons l2 ls2 => simp [joinLines, List.append_assoc]

/-- Folding `appendPoint` over points starting from a non-empty buffer
produces the newline-join of the buffer and the rendered points. -/
theorem foldl_appendPoint (pts : List Point) :
    ∀ b : List Nat, b ≠ [] →
      pts.foldl (fun out p => appendPoint out p.mesurement p.tags p.value p.timestamp) b =
        joinLines (b :: pts.map renderPoint) := by
  induction pts with
  | nil => intro b _; rfl
  | cons p pts ih =>
    intro b hb
    rw [List.foldl_cons]
    have hstep : appendPoint b p.mesurement p.tags p.value p.timestamp =
        b ++ [10] ++ renderPoint p := appendPoint_of_ne_nil b _ _ _ _ hb
    rw [hstep, ih (b ++ [10] ++ renderPoint p) (by simp), List.map_cons, joinLines_glue]
    rfl

/-- The device buffer built by the nine `appendPoint` calls equals the
rendered points joined with newlines: one point per line. -/
theorem devicePayload_eq_joinLines (hostname : List Nat) (g : GPUInfo) (ts : Int) :
    devicePayload hostname g ts = joinLines ((devicePoints hostname g ts).map renderPoint) := by
  have key : ∀ pts : List Point,
      List.foldl (fun out p => appendPoint out p.mesurement p.tags p.value p.timestamp) [] pts =
        joinLines (pts.map renderPoint) := by
    intro pts
    cases pts with
    | nil => rfl
    | cons p rest =>
      rw [List.foldl_cons]
      have h0 : appendPoint [] p.mesurement p.tags p.value p.timestamp = renderPoint p := rfl
      rw [h0, foldl_appendPoint rest (renderPoint p) (renderPoint_ne_nil p), List.map_cons]
  exact key _

/-- Nine points are produced per device. -/
theorem devicePoints_length (hostname : List Nat) (g : GPUInfo) (ts : Int) :
    (devicePoints hostname g ts).length = 9 := rfl

/-- The cycle produces 9 points per device entry. -/
theorem cyclePoints_length (hostname : List Nat) (info : NvidiaSmiLog) (ts : Int) :
    (cyclePoints hostname info ts).length = 9 * info.gpuInfoList.length := by
  unfold cyclePoints
  induction info.gpuInfoList with
  | nil => rfl
  | cons g rest ih =>
    rw [List.flatMap_cons, List.length_append, ih, devicePoints_length, List.length_cons]
    ring

/-- With no connection errors on the write calls, the device loop posts one
payload per device and does not crash. -/
theorem postDevices_no_connError (w h : List Nat) (ts : Int) (env : Nat → HTTPOutcome)
    (henv : ∀ k, env k ≠ HTTPOutcome.connError) :
    ∀ (devs : List GPUInfo) (k : Nat),
      postDevices w h ts env devs k =
        ⟨devs.map (fun g => Request.post w (devicePayload h g ts)), false⟩ := by
  intro devs
  induction devs with
  | nil => intro k; rfl
  | cons g rest ih =>
    intro k
    have hpu : postURL (env k) = false := by
      cases hek : env k
      · exact absurd hek (henv k)
      · rfl
      · rfl
    simp only [postDevices, hpu, Bool.false_eq_true, if_false, ih (k + 1), List.map_cons]

/-- The device loop only consults the oracle at indices at or above its
starting index. -/
theorem postDevices_env_congr (w h : List Nat) (ts : Int) (env env' : Nat → HTTPOutcome) :
    ∀ (devs : List GPUInfo) (k : Nat), (∀ j, k ≤ j → env j = env' j) →
      postDevices w h ts env devs k = postDevices w h ts env' devs k := by
  intro devs
  induction devs with
  | nil => intro k _; rfl
  | cons g rest ih =>
    intro k hk
    have h1 : env k = env' k := hk k (le_refl k)
    simp only [postDevices, h1]
    rw [ih (k + 1) (fun j hj => hk j (by omega))]

/-- The first request of a non-empty device loop is the first device's
write POST, whatever its outcome. -/
theorem postDevices_first (w h : List Nat) (ts : Int) (env : Nat → HTTPOutcome)
    (g : GPUInfo) (rest : List GPUInfo) (k : Nat) :
    (postDevices w h ts env (g :: rest) k).requests[0]? =
      some (Request.post w (devicePayload h g ts)) := by
  simp only [postDevices]
  split <;> simp

/-- Blanking `memory_util` does not change a device's payload: none of the
nine points reads that field. -/
theorem devicePayload_eraseDev (h : List Nat) (g : GPUInfo) (ts : Int) :
    devicePayload h (eraseDev g) ts = devicePayload h g ts := rfl

/-- Two device lists that agree after blanking `memory_util` drive the
write loop identically. -/
theorem postDevices_eraseDev (w h : List Nat) (ts : Int) (env : Nat → HTTPOutcome) :
    ∀ (xs ys : List GPUInfo) (k : Nat), xs.map eraseDev = ys.map eraseDev →
      postDevices w h ts env xs k = postDevices w h ts env ys k := by
  intro xs
  induction xs with
  | nil =>
    intro ys k hm
    cases ys with
    | nil => rfl
    | cons y ys => simp at hm
  | cons x xs ih =>
    intro ys k hm
    cases ys with
    | nil => simp at hm
    | cons y ys =>
      simp only [List.map_cons, List.cons.injEq] at hm
      obtain ⟨hxy, htail⟩ := hm
      have hpay : devicePayload h x ts = devicePayload h y ts := by
        rw [← devicePayload_eraseDev h x ts, hxy, devicePayload_eraseDev]
      simp only [postDevices]
      rw [hpay, ih ys (k + 1) htail]

/-- Upper-case hex encoding of a nibble decodes to itself. -/
theorem unhexDigit_upperHexDigit : ∀ n : Nat, n < 16 → unhexDigit (upperHexDigit n) = some n := by
  decide

/-- Unescaping a byte that is neither `%` nor `+` keeps it and continues. -/
theorem queryUnescape_cons_other (c : Nat) (s : List Nat) (h37 : c ≠ 37) (h43 : c ≠ 43) :
    queryUnescape (c :: s) = (queryUnescape s).map (fun r => c :: r) := by
  rcases s with - | ⟨h1, s1⟩
  · rw [queryUnescape.eq_3 c [] (by intro a b r h; simp at h), if_neg h37, if_neg h43]
  · rcases s1 with - | ⟨h2, rest⟩
    · rw [queryUnescape.eq_3 c [h1] (by intro a b r h; simp at h), if_neg h37, if_neg h43]
    · rw [queryUnescape.eq_2, if_neg h37, if_neg h43]

/-- Unescaping a `+` (byte 43) yields a space (byte 32) and continues. -/
theorem queryUnescape_cons_plus (s : List Nat) :
    queryUnescape (43 :: s) = (queryUnescape s).map (fun r => 32 :: r) := by
  rcases s with - | ⟨h1, s1⟩
  · rw [queryUnescape.eq_3 43 [] (by intro a b r h; simp at h),
      if_neg (show (43 : Nat) ≠ 37 from by decide), if_pos rfl]
  · rcases s1 with - | ⟨h2, rest⟩
    · rw [queryUnescape.eq_3 43 [h1] (by intro a b r h; simp at h),
        if_neg (show (43 : Nat) ≠ 37 from by decide), if_pos rfl]
    · rw [queryUnescape.eq_2, if_neg (show (43 : Nat) ≠ 37 from by decide), if_pos rfl]

/-- Go query escaping round-trips: unescaping the escaped byte string
recovers the original, for genuine byte values. -/
theorem queryUnescape_queryEscape (s : List Nat) (hs : ∀ b ∈ s, b < 256) :
    queryUnescape (queryEscape s) = some s := by
  induction s with
  | nil => rfl
  | cons c s ih =>
    have hc : c < 256 := hs c (List.mem_cons_self _ _)
    have ih' : queryUnescape (queryEscape s) = some s :=
      ih (fun b hb => hs b (List.mem_cons_of_mem _ hb))
    by_cases hu : isUnreservedByte c = true
    · have hne37 : c ≠ 37 := by
        unfold isUnreservedByte at hu
        simp only [Bool.or_eq_true, Bool.and_eq_true, decide_eq_true_eq] at hu
        omega
      have hne43 : c ≠ 43 := by
        unfold isUnreservedByte at hu
        simp only [Bool.or_eq_true, Bool.and_eq_true, decide_eq_true_eq] at hu
        omega
      have hesc : queryEscape (c :: s) = c :: queryEscape s := by
        simp [queryEscape, hu]
      rw [hesc, queryUnescape_cons_other c _ hne37 hne43, ih']
      rfl
    · by_cases h32 : c = 32
      · subst h32
        have hesc : queryEscape (32 :: s) = 43 :: queryEscape s := rfl
        rw [hesc, queryUnescape_cons_plus, ih']
        rfl
      · have hesc : queryEscape (c :: s) =
            37 :: upperHexDigit (c / 16) :: upperHexDigit (c % 16) :: queryEscape s := by
          simp [queryEscape, hu, h32]
        rw [hesc, queryUnescape.eq_2, if_pos rfl,
          unhexDigit_upperHexDigit (c / 16) (by omega),
          unhexDigit_upperHexDigit (c % 16) (by omega), ih']
        have hval : 16 * (c / 16) + c % 16 = c := by omega
        simp [hval]

/-! ### Claim theorems -/

/-- C1: the claim says a failed `getGPUInfo` cycle only logs and skips
publishing without crashing.  The code instead passes the nil report into
`postToInfluxdb`, which issues the create-database call and then panics
dereferencing the nil pointer while ranging over `GPUInfoList`, crashing
the process: the cycle does not merely skip, and no next cycle runs. -/
theorem c1_diag_failure_crashes_cycle (baseurl hostname : List Nat) (ts : Int)
    (env : Nat → HTTPOutcome) :
    mainCycle none baseurl hostname ts env =
      ⟨[Request.get (baseurl ++ goStr "query?q=CREATE%20DATABASE%20GPU")], true⟩ := rfl

/-- C2: the claim says every publishing failure — connection errors and
non-2xx responses alike — is only logged and the process never exits.  A
non-2xx response is indeed absorbed, but a connection error on the write
POST makes `postURL` dereference the nil response after logging, so the
process crashes (`crashed = true`). -/
theorem c2_write_conn_error_crashes_process :
    (postToInfluxdb (some sampleLog1) (goStr "http://db/") (goStr "host") 7
      envWriteConnError).crashed = true ∧
    (postToInfluxdb (some sampleLog1) (goStr "http://db/") (goStr "host") 7
      (fun _ => HTTPOutcome.resp 500 (goStr "err"))).crashed = false := by
  decide

/-- C3 counterexample: the claim says all points of a cycle go out in a
single write request.  A two-device report produces two write requests
(one per device), not one. -/
theorem c3_counterexample_two_writes_per_cycle :
    countWrites (postToInfluxdb (some sampleLog2) (goStr "http://db/") (goStr "host") 7
      envOK).requests = 2 ∧
    countWrites (postToInfluxdb (some sampleLog2) (goStr "http://db/") (goStr "host") 7
      envOK).requests ≠ 1 := by
  decide

/-- C3 (amended): per device, the nine points are concatenated into one
multi-line payload (one point per line) and sent in one write request per
device; a cycle with N devices issues N write requests after the single
create-database call. -/
theorem c3_amended_one_write_per_device (info : NvidiaSmiLog) (baseurl hostname : List Nat)
    (ts : Int) (env : Nat → HTTPOutcome)
    (henv : ∀ k, env k ≠ HTTPOutcome.connError) :
    (postToInfluxdb (some info) baseurl hostname ts env).requests =
      Request.get (baseurl ++ goStr "query?q=CREATE%20DATABASE%20GPU") ::
        info.gpuInfoList.map (fun g =>
          Request.post (baseurl ++ goStr "write?db=GPU") (devicePayload hostname g ts)) ∧
    (∀ (g : GPUInfo) (t2 : Int), devicePayload hostname g t2 =
      joinLines ((devicePoints hostname g t2).map renderPoint)) ∧
    countWrites (postToInfluxdb (some info) baseurl hostname ts env).requests =
      info.gpuInfoList.length ∧
    (postToInfluxdb (some info) baseurl hostname ts env).crashed = false := by
  have hreq := postDevices_no_connError (baseurl ++ goStr "write?db=GPU") hostname ts env henv
    info.gpuInfoList 1
  refine ⟨?_, ?_, ?_, ?_⟩
  · simp only [postToInfluxdb, hreq]
  · intro g t2
    exact devicePayload_eq_joinLines hostname g t2
  · simp only [postToInfluxdb, hreq, countWrites]
    induction info.gpuInfoList with
    | nil => rfl
    | cons g rest ih => simpa using ih
  · simp only [postToInfluxdb, hreq]

/-- C3 amended witness: concrete two-device cycle with all calls
succeeding. -/
theorem c3_amended_witness :
    (∀ k, envOK k ≠ HTTPOutcome.connError) ∧
    ((postToInfluxdb (some sampleLog2) (goStr "http://db/") (goStr "host") 7 envOK).requests =
      Request.get (goStr "http://db/" ++ goStr "query?q=CREATE%20DATABASE%20GPU") ::
        sampleLog2.gpuInfoList.map (fun g =>
          Request.post (goStr "http://db/" ++ goStr "write?db=GPU")
            (devicePayload (goStr "host") g 7)) ∧
    (∀ (g : GPUInfo) (t2 : Int), devicePayload (goStr "host") g t2 =
      joinLines ((devicePoints (goStr "host") g t2).map renderPoint)) ∧
    countWrites (postToInfluxdb (some sampleLog2) (goStr "http://db/") (goStr "host") 7
      envOK).requests = sampleLog2.gpuInfoList.length ∧
    (postToInfluxdb (some sampleLog2) (goStr "http://db/") (goStr "host") 7 envOK).crashed =
      false) :=
  ⟨fun _ h => HTTPOutcome.noConfusion h,
   c3_amended_one_write_per_device sampleLog2 (goStr "http://db/") (goStr "host") 7 envOK
     (fun _ h => HTTPOutcome.noConfusion h)⟩

/-- C4: a report with N device entries yields exactly 9*N points per cycle;
every point of a device carries the tag string built from the host
identifier, the device id, the URL-escaped product name and the minor
number (hence the tag set is identical across the nine points of a
device), and all points of the cycle share the one cycle timestamp. -/
theorem c4_points_tags_timestamp (hostname : List Nat) (info : NvidiaSmiLog) (ts : Int)
    (g : GPUInfo) (p : Point)
    (_hg : g ∈ info.gpuInfoList) (hp : p ∈ devicePoints hostname g ts) :
    (cyclePoints hostname info ts).length = 9 * info.gpuInfoList.length ∧
    p.tags = goStr "hostname=" ++ hostname ++ goStr ",gpuid=" ++ g.id ++
      goStr ",product=" ++ queryEscape g.productName ++ goStr ",minor=" ++
      showInt g.minorNumber ∧
    p.timestamp = ts ∧
    (∀ q ∈ cyclePoints hostname info ts, q.timestamp = ts) := by
  refine ⟨cyclePoints_length hostname info ts, ?_, ?_, ?_⟩
  · simp only [devicePoints, List.mem_cons, List.not_mem_nil, or_false] at hp
    rcases hp with h | h | h | h | h | h | h | h | h <;> (subst h; rfl)
  · simp only [devicePoints, List.mem_cons, List.not_mem_nil, or_false] at hp
    rcases hp with h | h | h | h | h | h | h | h | h <;> (subst h; rfl)
  · intro q hq
    simp only [cyclePoints, List.mem_flatMap] at hq
    obtain ⟨g2, _, hq2⟩ := hq
    simp only [devicePoints, List.mem_cons, List.not_mem_nil, or_false] at hq2
    rcases hq2 with h | h | h | h | h | h | h | h | h <;> (subst h; rfl)

/-- C4 witness: concrete one-device report, first point. -/
theorem c4_witness :
    sampleDev1 ∈ sampleLog1.gpuInfoList ∧
    samplePoint ∈ devicePoints (goStr "host") sampleDev1 7 ∧
    ((cyclePoints (goStr "host") sampleLog1 7).length = 9 * sampleLog1.gpuInfoList.length ∧
    samplePoint.tags = goStr "hostname=" ++ goStr "host" ++ goStr ",gpuid=" ++ sampleDev1.id ++
      goStr ",product=" ++ queryEscape sampleDev1.productName ++ goStr ",minor=" ++
      showInt sampleDev1.minorNumber ∧
    samplePoint.timestamp = 7 ∧
    (∀ q ∈ cyclePoints (goStr "host") sampleLog1 7, q.timestamp = 7)) :=
  ⟨by decide, by decide,
   c4_points_tags_timestamp (goStr "host") sampleLog1 7 sampleDev1 samplePoint
     (by decide) (by decide)⟩

/-- C5 counterexample: the claim says a string with the `" MiB"` suffix but
a malformed integer part yields 0.  `"1 MiB MiB"` has the suffix and the
malformed integer part `"1 MiB"`, yet the conversion removes every
occurrence of `" MiB"` and returns 1048576, not 0. -/
theorem c5_counterexample_repeated_mib :
    memUsage2Int (goStr "1 MiB MiB") = 1048576 ∧
    memUsage2Int (goStr "1 MiB MiB") ≠ 0 := by
  decide

/-- C5 (amended): a string without the `" MiB"` suffix yields 0; a string
with the suffix has every occurrence of `" MiB"` removed and the remainder
parsed as a decimal 64-bit integer, so `"<integer> MiB"` (with the integer
and its scaled product in int64 range) yields the integer times 1048576,
while a remainder that is not a syntactically valid integer yields 0. -/
theorem c5_amended_memory_conversion (s t u : List Nat)
    (hv : isValidInt64Str s = true)
    (hlo : -(2 ^ 63) ≤ decStrVal s * 1048576)
    (hhi : decStrVal s * 1048576 < 2 ^ 63)
    (ht : hasSuffix t mibSuffix = false)
    (hu : isValidInt64Str (stringsReplaceAll u mibSuffix) = false) :
    memUsage2Int (s ++ mibSuffix) = decStrVal s * 1048576 ∧
    memUsage2Int t = 0 ∧
    memUsage2Int u = 0 := by
  refine ⟨?_, ?_, ?_⟩
  · have hb1 : -(2 ^ 63) ≤ decStrVal s := by
      by_contra hcon
      push_neg at hcon
      have hlt : decStrVal s * 1048576 < -(2 ^ 63) := by nlinarith
      linarith
    have hb2 : decStrVal s < 2 ^ 63 := by
      by_contra hcon
      push_neg at hcon
      have hge : (2 : Int) ^ 63 ≤ decStrVal s * 1048576 := by nlinarith
      linarith
    unfold memUsage2Int
    rw [hasSuffix_append_self, if_pos rfl]
    have hrep : stringsReplaceAll (s ++ mibSuffix) mibSuffix = s := by
      rw [mibSuffix_cons]
      exact stringsReplaceAll_append s 32 [77, 105, 66] (validInt64Str_no_space s hv)
    rw [hrep, parseInt64_eq_decStrVal s hv hb1 hb2]
    have harith : decStrVal s * 1024 * 1024 = decStrVal s * 1048576 := by ring
    rw [harith]
    exact int64Wrap_eq_self _ hlo hhi
  · unfold memUsage2Int
    rw [ht, if_neg Bool.false_ne_true]
  · unfold memUsage2Int
    cases hsuf : hasSuffix u mibSuffix
    · rw [if_neg Bool.false_ne_true]
    · rw [if_pos rfl, parseInt64_invalid _ hu]
      decide

/-- C5 amended witness: `"11519 MiB"` converts to 11519*1048576, a string
without the suffix and a suffixed string with unparseable remainder both
yield 0. -/
theorem c5_witness :
    isValidInt64Str (goStr "11519") = true ∧
    -(2 ^ 63) ≤ decStrVal (goStr "11519") * 1048576 ∧
    decStrVal (goStr "11519") * 1048576 < 2 ^ 63 ∧
    hasSuffix (goStr "1234") mibSuffix = false ∧
    isValidInt64Str (stringsReplaceAll (goStr "x MiB") mibSuffix) = false ∧
    (memUsage2Int (goStr "11519" ++ mibSuffix) = decStrVal (goStr "11519") * 1048576 ∧
    memUsage2Int (goStr "1234") = 0 ∧
    memUsage2Int (goStr "x MiB") = 0) :=
  ⟨by decide, by decide, by decide, by decide, by decide,
   c5_amended_memory_conversion (goStr "11519") (goStr "1234") (goStr "x MiB")
     (by decide) (by decide) (by decide) (by decide) (by decide)⟩

/-- C6 counterexample: the claim says a string with the `" %"` suffix but a
malformed integer part yields 0.  `"1 % %"` has the suffix and the
malformed integer part `"1 %"`, yet the conversion removes every
occurrence of `" %"` and returns 1, not 0. -/
theorem c6_counterexample_repeated_pct :
    utilization2Float (goStr "1 % %") = 1 ∧
    utilization2Float (goStr "1 % %") ≠ 0 := by
  decide

/-- C6 (amended): a string without the `" %"` suffix yields 0; a string
with the suffix has every occurrence of `" %"` removed and the remainder
parsed as a decimal 64-bit integer, so `"<integer> %"` (with the integer in
int64 range) yields that integer unchanged, while a remainder that is not
a syntactically valid integer yields 0. -/
theorem c6_amended_utilization_conversion (s t u : List Nat)
    (hv : isValidInt64Str s = true)
    (hlo : -(2 ^ 63) ≤ decStrVal s)
    (hhi : decStrVal s < 2 ^ 63)
    (ht : hasSuffix t pctSuffix = false)
    (hu : isValidInt64Str (stringsReplaceAll u pctSuffix) = false) :
    utilization2Float (s ++ pctSuffix) = decStrVal s ∧
    utilization2Float t = 0 ∧
    utilization2Float u = 0 := by
  refine ⟨?_, ?_, ?_⟩
  · unfold utilization2Float
    rw [hasSuffix_append_self, if_pos rfl]
    have hrep : stringsReplaceAll (s ++ pctSuffix) pctSuffix = s := by
      rw [pctSuffix_cons]
      exact stringsReplaceAll_append s 32 [37] (validInt64Str_no_space s hv)
    rw [hrep]
    exact parseInt64_eq_decStrVal s hv hlo hhi
  · unfold utilization2Float
    rw [ht, if_neg Bool.false_ne_true]
  · unfold utilization2Float
    cases hsuf : hasSuffix u pctSuffix
    · rw [if_neg Bool.false_ne_true]
    · rw [if_pos rfl]
      exact parseInt64_invalid _ hu

/-- C6 amended witness: `"83 %"` converts to 83; a string without the
suffix and a suffixed string with unparseable remainder both yield 0. -/
theorem c6_witness :
    isValidInt64Str (goStr "83") = true ∧
    -(2 ^ 63) ≤ decStrVal (goStr "83") ∧
    decStrVal (goStr "83") < 2 ^ 63 ∧
    hasSuffix (goStr "50") pctSuffix = false ∧
    isValidInt64Str (stringsReplaceAll (goStr "x %") pctSuffix) = false ∧
    (utilization2Float (goStr "83" ++ pctSuffix) = decStrVal (goStr "83") ∧
    utilization2Float (goStr "50") = 0 ∧
    utilization2Float (goStr "x %") = 0) :=
  ⟨by decide, by decide, by decide, by decide, by decide,
   c6_amended_utilization_conversion (goStr "83") (goStr "50") (goStr "x %")
     (by decide) (by decide) (by decide) (by decide) (by decide)⟩

/-- C7: in every cycle that reaches transmission, the create-database GET
is the first request issued; its outcome (success, non-200 or connection
error, oracle index 0) does not change the cycle's execution at all, and
when the report has at least one device the very next request is that
device's write POST. -/
theorem c7_create_db_before_write (info : NvidiaSmiLog) (baseurl hostname : List Nat)
    (ts : Int) (env env' : Nat → HTTPOutcome)
    (hagree : ∀ k, 1 ≤ k → env k = env' k) :
    postToInfluxdb (some info) baseurl hostname ts env =
      postToInfluxdb (some info) baseurl hostname ts env' ∧
    (postToInfluxdb (some info) baseurl hostname ts env).requests[0]? =
      some (Request.get (baseurl ++ goStr "query?q=CREATE%20DATABASE%20GPU")) ∧
    ∀ g rest, info.gpuInfoList = g :: rest →
      (postToInfluxdb (some info) baseurl hostname ts env).requests[1]? =
        some (Request.post (baseurl ++ goStr "write?db=GPU")
          (devicePayload hostname g ts)) := by
  refine ⟨?_, ?_, ?_⟩
  · simp only [postToInfluxdb]
    rw [postDevices_env_congr (baseurl ++ goStr "write?db=GPU") hostname ts env env'
      info.gpuInfoList 1 (fun j hj => hagree j hj)]
  · simp only [postToInfluxdb]
    simp
  · intro g rest hrest
    simp only [postToInfluxdb, hrest]
    simp only [List.getElem?_cons_succ]
    exact postDevices_first (baseurl ++ goStr "write?db=GPU") hostname ts env g rest 1

/-- C7 witness: a concrete cycle in which the create-database call fails
compared against one in which it succeeds. -/
theorem c7_witness :
    (∀ k, 1 ≤ k → envOK k = envCreateFails k) ∧
    (postToInfluxdb (some sampleLog1) (goStr "http://db/") (goStr "host") 7 envOK =
      postToInfluxdb (some sampleLog1) (goStr "http://db/") (goStr "host") 7 envCreateFails ∧
    (postToInfluxdb (some sampleLog1) (goStr "http://db/") (goStr "host") 7 envOK).requests[0]? =
      some (Request.get (goStr "http://db/" ++ goStr "query?q=CREATE%20DATABASE%20GPU")) ∧
    ∀ g rest, sampleLog1.gpuInfoList = g :: rest →
      (postToInfluxdb (some sampleLog1) (goStr "http://db/") (goStr "host") 7
        envOK).requests[1]? =
        some (Request.post (goStr "http://db/" ++ goStr "write?db=GPU")
          (devicePayload (goStr "host") g 7))) := by
  have hag : ∀ k, 1 ≤ k → envOK k = envCreateFails k := by
    intro k hk
    unfold envOK envCreateFails
    rw [if_neg (by omega)]
  exact ⟨hag,
    c7_create_db_before_write sampleLog1 (goStr "http://db/") (goStr "host") 7
      envOK envCreateFails hag⟩

/-- C8: every point's tag string carries the query-escaped product name,
and unescaping the escaped name recovers the original product name. -/
theorem c8_product_escape_roundtrip (hostname : List Nat) (g : GPUInfo) (ts : Int)
    (p : Point) (hp : p ∈ devicePoints hostname g ts)
    (hb : ∀ b ∈ g.productName, b < 256) :
    p.tags = goStr "hostname=" ++ hostname ++ goStr ",gpuid=" ++ g.id ++
      goStr ",product=" ++ queryEscape g.productName ++ goStr ",minor=" ++
      showInt g.minorNumber ∧
    queryUnescape (queryEscape g.productName) = some g.productName := by
  constructor
  · simp only [devicePoints, List.mem_cons, List.not_mem_nil, or_false] at hp
    rcases hp with h | h | h | h | h | h | h | h | h <;> (subst h; rfl)
  · exact queryUnescape_queryEscape _ hb

/-- C8 witness: the product name `"Tesla K80"` (containing a space) escapes
to `"Tesla+K80"` inside the tag string and unescapes back. -/
theorem c8_witness :
    samplePoint ∈ devicePoints (goStr "host") sampleDev1 7 ∧
    (∀ b ∈ sampleDev1.productName, b < 256) ∧
    queryEscape sampleDev1.productName = goStr "Tesla+K80" ∧
    (samplePoint.tags = goStr "hostname=" ++ goStr "host" ++ goStr ",gpuid=" ++
      sampleDev1.id ++ goStr ",product=" ++ queryEscape sampleDev1.productName ++
      goStr ",minor=" ++ showInt sampleDev1.minorNumber ∧
    queryUnescape (queryEscape sampleDev1.productName) = some sampleDev1.productName) :=
  ⟨by decide, by decide, by decide,
   c8_product_escape_roundtrip (goStr "host") sampleDev1 7 samplePoint
     (by decide) (by decide)⟩

/-- C9: the decoded `memory_util` field never influences the cycle output:
two reports that agree after blanking every device's `memory_util` produce
identical request traces (hence identical payloads) under any environment. -/
theorem c9_memory_util_no_influence (x y : NvidiaSmiLog) (baseurl hostname : List Nat)
    (ts : Int) (env : Nat → HTTPOutcome)
    (hxy : eraseMemUtil x = eraseMemUtil y) :
    postToInfluxdb (some x) baseurl hostname ts env =
      postToInfluxdb (some y) baseurl hostname ts env := by
  have hm : x.gpuInfoList.map eraseDev = y.gpuInfoList.map eraseDev := by
    have hfield := congrArg NvidiaSmiLog.gpuInfoList hxy
    simpa [eraseMemUtil] using hfield
  simp only [postToInfluxdb]
  rw [postDevices_eraseDev (baseurl ++ goStr "write?db=GPU") hostname ts env
    x.gpuInfoList y.gpuInfoList 1 hm]

/-- C9 witness: two concrete reports differing only in `memory_util`
produce the same execution. -/
theorem c9_witness :
    eraseMemUtil sampleLog1 = eraseMemUtil sampleLog1AltMemUtil ∧
    postToInfluxdb (some sampleLog1) (goStr "http://db/") (goStr "host") 7 envOK =
      postToInfluxdb (some sampleLog1AltMemUtil) (goStr "http://db/") (goStr "host") 7 envOK :=
  ⟨by decide,
   c9_memory_util_no_influence sampleLog1 sampleLog1AltMemUtil (goStr "http://db/")
     (goStr "host") 7 envOK (by decide)⟩

/-- C10: the conversions perform no range validation: `"-5 MiB"` yields the
negative byte count -5*1048576 and `"150 %"` yields 150, and a device
reporting those strings has exactly those values emitted in its points
(frame-buffer-total point and gpu-utilization point respectively). -/
theorem c10_no_range_validation :
    memUsage2Int (goStr "-5 MiB") = -5242880 ∧
    utilization2Float (goStr "150 %") = 150 ∧
    (devicePoints (goStr "host") rangeDevice 7).map Point.value =
      [-5242880, 0, 0, 0, 0, 0, 150, 0, 0] := by
  decide
